import Mathlib

/-!
Verification development for the Geoguide repository.

The backend (src/backend/server.js, plus the PHP variants shipped in the
repository) exposes a CRUD surface over a pluggable Record Store for Tour
aggregates and a Blob Store for media uploads.  This file gives a shallow
embedding of the data model (src/types.ts), the store strategies
(MemoryPersistence, FilePersistence, FirestorePersistence), the provider
selection logic, the router handlers, and the storage-key generators, and
proves or refutes the frozen specification claims about them.

Conventions of the embedding:
* JavaScript / PHP assoc objects are modelled as `List (String × Json)`.
* Machine epoch-millisecond clocks are passed in explicitly as `Nat`
  parameters (`now`); `Math.random` draws are passed in as `Nat`.
* The on-disk JSON document of the file-backed store is modelled at the
  JSON-AST level (`Json`): `JSON.stringify`/`JSON.parse` are the encode /
  decode functions between `Tour` values and the AST; the concrete text
  layer is abstracted away.
* Fallible operations return `Option`.
-/

/-! ## Data model (src/types.ts) -/

/-- GeoPoint from types.ts.  Coordinates are carried opaquely by every claim
we treat, so they are modelled as integers. -/
structure GeoPoint where
  lat : Int
  lng : Int
deriving DecidableEq, Repr

/-- MediaType enum from types.ts (values "video", "audio", "image", "none"). -/
inductive MediaType where
  | video
  | audio
  | image
  | none
deriving DecidableEq, Repr

/-- TourStop from types.ts. -/
structure TourStop where
  id : String
  title : String
  description : String
  location : GeoPoint
  mediaUrl : Option String
  mediaType : MediaType
  placeId : Option String
deriving DecidableEq, Repr

/-- Tour aggregate from types.ts. -/
structure Tour where
  id : String
  title : String
  description : String
  authorId : String
  stops : List TourStop
  createdAt : Nat
  updatedAt : Nat
  coverUrl : Option String
deriving DecidableEq, Repr

/-! ## Record Store, in-memory variant (server.js, MemoryPersistence)

`saveTour` does `findIndex` on the backing array, assigns in place when a
record with the same id exists, else pushes; `getTour` is `find`;
`deleteTour` is `filter`.  `upsertBy` captures the findIndex/assign/push
shape once, parameterised by the identifier-match predicate, and is
instantiated at the typed `Tour` level here and at the raw JSON-object
level for the router further below. -/

/-- The findIndex / assign-in-place / push shape of `saveTour`
(server.js lines 80-85): replace the first element matching `same`
against `x`, else append `x` at the end. -/
def upsertBy (same : α → α → Bool) (st : List α) (x : α) : List α :=
  match st.findIdx? (fun t => same t x) with
  | some i => st.set i x
  | Option.none => st ++ [x]

/-- MemoryPersistence.saveTour: upsert keyed by `t.id === tour.id`. -/
def saveTourList (st : List Tour) (tour : Tour) : List Tour :=
  upsertBy (fun t x => t.id == x.id) st tour

/-- MemoryPersistence.getTour: `this.tours.find(t => t.id === id)`. -/
def getTourList (st : List Tour) (id : String) : Option Tour :=
  st.find? (fun t => t.id == id)

/-- MemoryPersistence.deleteTour: `this.tours.filter(t => t.id !== id)`. -/
def deleteTourList (st : List Tour) (id : String) : List Tour :=
  st.filter (fun t => !(t.id == id))

/-! ## JSON values

JavaScript / PHP JSON documents, at the abstract-syntax level.  Objects are
ordered key-value lists, as in both runtimes. -/

/-- A JSON value.  `obj` carries its key-value pairs in insertion order. -/
inductive Json where
  | str : String → Json
  | num : Int → Json
  | bool : Bool → Json
  | null : Json
  | arr : List Json → Json
  | obj : List (String × Json) → Json

/-- A JSON object body (the payload of `Json.obj`). -/
abbrev JObj := List (String × Json)

/-- Property lookup on a JSON object: the value at the first occurrence of
the key, `none` when the key is absent (JS `undefined`). -/
def lookupKey (key : String) : JObj → Option Json
  | [] => Option.none
  | (k, v) :: rest => if k == key then some v else lookupKey key rest

/-- Extract a string-valued property (used to state concrete scenarios). -/
def strField (key : String) (o : JObj) : Option String :=
  match lookupKey key o with
  | some (Json.str s) => some s
  | _ => Option.none

theorem upsertBy_nil (same : α → α → Bool) (x : α) : upsertBy same [] x = [x] := rfl

theorem upsertBy_cons (same : α → α → Bool) (t : α) (ts : List α) (x : α) :
    upsertBy same (t :: ts) x =
      if same t x then x :: ts else t :: upsertBy same ts x := by
  unfold upsertBy
  rw [List.findIdx?_cons]
  by_cases h : same t x
  · simp [h]
  · simp only [h, if_false, List.findIdx?_succ]
    cases hfi : ts.findIdx? (fun u => same u x) with
    | none => simp
    | some i => simp

/-- Helper: after an upsert keyed by `·.id`, looking the key up again finds
exactly the upserted element.  Shared by several claims. -/
theorem getTourList_saveTourList (st : List Tour) (T : Tour) :
    getTourList (saveTourList st T) T.id = some T := by
  induction st with
  | nil =>
    simp [saveTourList, upsertBy_nil, getTourList]
  | cons t ts ih =>
    rw [saveTourList, upsertBy_cons]
    cases h : t.id == T.id with
    | true => simp [getTourList]
    | false =>
      rw [if_neg (by simp)]
      unfold getTourList
      rw [List.find?_cons_of_neg _ (by simp [h])]
      exact ih

/-! ## Tour JSON codec

`FilePersistence` persists `JSON.stringify(this.tours, null, 2)` and reloads
with `JSON.parse`.  At the AST level this is the following encoder / decoder
pair for the Tour shape of types.ts; optional fields are omitted from the
object when absent, exactly as `JSON.stringify` drops `undefined` fields. -/

/-- Encode a MediaType to its types.ts enum string value. -/
def encodeMediaType : MediaType → Json
  | MediaType.video => Json.str "video"
  | MediaType.audio => Json.str "audio"
  | MediaType.image => Json.str "image"
  | MediaType.none => Json.str "none"

/-- Decode a MediaType from its enum string value. -/
def decodeMediaType : Json → Option MediaType
  | Json.str "video" => some MediaType.video
  | Json.str "audio" => some MediaType.audio
  | Json.str "image" => some MediaType.image
  | Json.str "none" => some MediaType.none
  | _ => Option.none

/-- Decode a JSON string value. -/
def decodeString : Json → Option String
  | Json.str s => some s
  | _ => Option.none

/-- Decode a JSON integer value. -/
def decodeInt : Json → Option Int
  | Json.num i => some i
  | _ => Option.none

/-- Decode a non-negative JSON integer (epoch timestamps). -/
def decodeNum : Json → Option Nat
  | Json.num i => if i < 0 then Option.none else some i.toNat
  | _ => Option.none

/-- Encode a GeoPoint. -/
def encodeGeoPoint (g : GeoPoint) : Json :=
  Json.obj [("lat", Json.num g.lat), ("lng", Json.num g.lng)]

/-- Decode a GeoPoint. -/
def decodeGeoPoint : Json → Option GeoPoint
  | Json.obj o =>
    match lookupKey "lat" o >>= decodeInt, lookupKey "lng" o >>= decodeInt with
    | some la, some ln => some ⟨la, ln⟩
    | _, _ => Option.none
  | _ => Option.none

/-- Encode a TourStop, fields in types.ts declaration order; optional fields
are present only when set. -/
def encodeStop (s : TourStop) : Json :=
  Json.obj
    ([("id", Json.str s.id), ("title", Json.str s.title),
      ("description", Json.str s.description),
      ("location", encodeGeoPoint s.location)]
      ++ (match s.mediaUrl with
          | some u => [("mediaUrl", Json.str u)]
          | Option.none => [])
      ++ [("mediaType", encodeMediaType s.mediaType)]
      ++ (match s.placeId with
          | some p => [("placeId", Json.str p)]
          | Option.none => []))

/-- Decode a TourStop. -/
def decodeStop : Json → Option TourStop
  | Json.obj o =>
    match lookupKey "id" o >>= decodeString, lookupKey "title" o >>= decodeString,
        lookupKey "description" o >>= decodeString,
        lookupKey "location" o >>= decodeGeoPoint,
        lookupKey "mediaType" o >>= decodeMediaType with
    | some i, some t, some d, some loc, some mt =>
      some ⟨i, t, d, loc, lookupKey "mediaUrl" o >>= decodeString, mt,
        lookupKey "placeId" o >>= decodeString⟩
    | _, _, _, _, _ => Option.none
  | _ => Option.none

/-- Decode every element of a JSON array, failing when any element fails. -/
def decodeList (f : Json → Option α) : List Json → Option (List α)
  | [] => some []
  | j :: rest =>
    match f j, decodeList f rest with
    | some a, some as => some (a :: as)
    | _, _ => Option.none

/-- Encode a Tour, fields in types.ts declaration order. -/
def encodeTour (t : Tour) : Json :=
  Json.obj
    ([("id", Json.str t.id), ("title", Json.str t.title),
      ("description", Json.str t.description),
      ("authorId", Json.str t.authorId),
      ("stops", Json.arr (t.stops.map encodeStop)),
      ("createdAt", Json.num (Int.ofNat t.createdAt)),
      ("updatedAt", Json.num (Int.ofNat t.updatedAt))]
      ++ (match t.coverUrl with
          | some u => [("coverUrl", Json.str u)]
          | Option.none => []))

/-- Decode a JSON array of TourStops. -/
def decodeStopsArr : Json → Option (List TourStop)
  | Json.arr l => decodeList decodeStop l
  | _ => Option.none

/-- Decode a Tour. -/
def decodeTour : Json → Option Tour
  | Json.obj o =>
    match lookupKey "id" o >>= decodeString, lookupKey "title" o >>= decodeString,
        lookupKey "description" o >>= decodeString,
        lookupKey "authorId" o >>= decodeString,
        lookupKey "stops" o >>= decodeStopsArr,
        lookupKey "createdAt" o >>= decodeNum,
        lookupKey "updatedAt" o >>= decodeNum with
    | some i, some ti, some d, some a, some st, some c, some u =>
      some ⟨i, ti, d, a, st, c, u, lookupKey "coverUrl" o >>= decodeString⟩
    | _, _, _, _, _, _, _ => Option.none
  | _ => Option.none

/-- The persisted document: `JSON.stringify(this.tours, null, 2)` at the
AST level, an array of encoded Tours. -/
def encodeTours (ts : List Tour) : Json :=
  Json.arr (ts.map encodeTour)

/-- Parse the persisted document back into a working set. -/
def decodeTours : Json → Option (List Tour)
  | Json.arr l => decodeList decodeTour l
  | _ => Option.none

theorem decodeNum_encode (n : Nat) : decodeNum (Json.num (n : Int)) = some n := by
  have h : ¬ ((n : Int) < 0) := by omega
  simp [decodeNum, h]

theorem decodeMediaType_encode (m : MediaType) :
    decodeMediaType (encodeMediaType m) = some m := by
  cases m <;> rfl

theorem decodeGeoPoint_encode (g : GeoPoint) :
    decodeGeoPoint (encodeGeoPoint g) = some g := rfl

theorem decodeStop_encode (s : TourStop) : decodeStop (encodeStop s) = some s := by
  cases s with
  | mk i t d loc mu mt pid =>
    cases mu <;> cases pid <;>
      simp [encodeStop, decodeStop, lookupKey, decodeString,
        decodeGeoPoint_encode, decodeMediaType_encode]

theorem decodeList_encode (f : α → Json) (g : Json → Option α)
    (h : ∀ a, g (f a) = some a) (l : List α) :
    decodeList g (l.map f) = some l := by
  induction l with
  | nil => rfl
  | cons a rest ih => simp [decodeList, h, ih]

theorem decodeTour_encode (t : Tour) : decodeTour (encodeTour t) = some t := by
  cases t with
  | mk i ti d a st c u cov =>
    cases cov <;>
      simp [encodeTour, decodeTour, lookupKey, decodeString, decodeStopsArr,
        decodeNum_encode, decodeList_encode _ _ decodeStop_encode]

theorem decodeTours_encode (ts : List Tour) : decodeTours (encodeTours ts) = some ts := by
  simp [encodeTours, decodeTours, decodeList_encode _ _ decodeTour_encode]

/-! ## Record Store, file-backed variant (server.js, FilePersistence)

FilePersistence extends MemoryPersistence: the working set lives in memory,
and every `saveTour` / `deleteTour` calls `_save`, which rewrites the whole
JSON document (`fs.writeFileSync(this.dataFile, JSON.stringify(this.tours,
null, 2))`).  On construction, `_load` parses the document when present and
keeps the empty working set on absence or parse failure. -/

/-- State of the file-backed variant: the in-memory working set plus the
on-disk JSON document (`none` while the file does not exist). -/
structure FileState where
  tours : List Tour
  file : Option Json

/-- FilePersistence.saveTour: `super.saveTour(tour)` then `this._save()`. -/
def fileSaveTour (st : FileState) (t : Tour) : FileState :=
  let ts := saveTourList st.tours t
  ⟨ts, some (encodeTours ts)⟩

/-- FilePersistence.deleteTour: `super.deleteTour(id)` then `this._save()`. -/
def fileDeleteTour (st : FileState) (id : String) : FileState :=
  let ts := deleteTourList st.tours id
  ⟨ts, some (encodeTours ts)⟩

/-- FilePersistence._load on process restart: start from the empty working
set, then parse the document when it exists; a parse failure keeps the
empty set. -/
def reloadTours (file : Option Json) : List Tour :=
  match file with
  | Option.none => []
  | some j =>
    match decodeTours j with
    | some ts => ts
    | Option.none => []

/-- One successful mutation of the file-backed store. -/
inductive Mutation where
  | save : Tour → Mutation
  | del : String → Mutation

/-- Apply one mutation. -/
def applyMutation (st : FileState) : Mutation → FileState
  | Mutation.save t => fileSaveTour st t
  | Mutation.del id => fileDeleteTour st id

/-- Apply a sequence of mutations in order. -/
def applyMutations (st : FileState) (ms : List Mutation) : FileState :=
  ms.foldl applyMutation st

/-! ## Record Store, managed-document-store variant (server.js,
FirestorePersistence) -/

/-- Modelled from the spec: the managed document store that the Firestore
client library exposes to FirestorePersistence is absent from src/, so the
collection is modelled per spec section 4.1 as a mapping from document key
to Tour, with `doc(id).set` a keyed replace-or-insert and `doc(id).get`
a keyed lookup (last-write-wins, no concurrency check). -/
abbrev FsCollection := List (String × Tour)

/-- Modelled from the spec: `collection.doc(key).set(tour)` replaces the
document at `key` or inserts it (keyed replace-or-insert). -/
def fsDocSet : FsCollection → String → Tour → FsCollection
  | [], key, t => [(key, t)]
  | kv :: rest, key, t =>
    if kv.1 == key then (key, t) :: rest else kv :: fsDocSet rest key t

/-- Modelled from the spec: `collection.doc(key).get()` returns the document
at `key` when it exists. -/
def fsDocGet (db : FsCollection) (key : String) : Option Tour :=
  (List.find? (fun kv => kv.1 == key) db).map (fun kv => kv.2)

/-- FirestorePersistence.saveTour: `this.collection.doc(tour.id).set(tour)`. -/
def fsSaveTour (db : FsCollection) (t : Tour) : FsCollection :=
  fsDocSet db t.id t

/-- FirestorePersistence.getTour: `this.collection.doc(id).get()`. -/
def fsGetTour (db : FsCollection) (id : String) : Option Tour :=
  fsDocGet db id

theorem fsDocGet_fsDocSet (db : FsCollection) (key : String) (t : Tour) :
    fsDocGet (fsDocSet db key t) key = some t := by
  induction db with
  | nil => simp [fsDocSet, fsDocGet]
  | cons kv rest ih =>
    simp only [fsDocSet]
    cases h : kv.1 == key with
    | true => simp [fsDocGet]
    | false =>
      rw [if_neg (by simp)]
      unfold fsDocGet at ih ⊢
      rw [List.find?_cons_of_neg _ (by simp [h])]
      exact ih

/-! ## Router handlers over the typed store (server.js, API routes)

The GET-by-id and DELETE handlers over the in-memory working set.  The
in-memory store cannot fail, so the catch branches of the handlers
(500 responses) are unreachable in this variant and do not appear. -/

/-- Response of `GET /api/tours/:id` (server.js lines 266-274): the tour as
JSON when `getTour` finds one (JS objects are truthy), else a 404 with body
`message: Not found`. -/
def getTourRoute (st : List Tour) (id : String) : Nat × Json :=
  match getTourList st id with
  | some t => (200, encodeTour t)
  | Option.none => (404, Json.obj [("message", Json.str "Not found")])

/-- Response and next state of `DELETE /api/tours/:id` (server.js lines
291-298): delete, then always 204 with no body. -/
def deleteTourRoute (st : List Tour) (id : String) : List Tour × Nat :=
  (deleteTourList st id, 204)

/-! ## Store-level helper lemmas -/

theorem getTourList_deleteTourList (st : List Tour) (id : String) :
    getTourList (deleteTourList st id) id = Option.none := by
  induction st with
  | nil => rfl
  | cons t ts ih =>
    simp only [deleteTourList, List.filter_cons] at ih ⊢
    cases h : t.id == id with
    | true => simpa using ih
    | false =>
      rw [if_pos (by simp)]
      unfold getTourList at ih ⊢
      rw [List.find?_cons_of_neg _ (by simp [h])]
      exact ih

theorem getTourList_eq_none (st : List Tour) (id : String)
    (h : ∀ t ∈ st, t.id ≠ id) : getTourList st id = Option.none := by
  unfold getTourList
  exact List.find?_eq_none.mpr (fun t ht => by simp [h t ht])

theorem applyMutation_file (st : FileState) (m : Mutation) :
    (applyMutation st m).file = some (encodeTours (applyMutation st m).tours) := by
  cases m <;> rfl

theorem reload_applyMutations (ms : List Mutation) : ∀ (st : FileState),
    st.file = some (encodeTours st.tours) →
    reloadTours (applyMutations st ms).file = (applyMutations st ms).tours := by
  induction ms with
  | nil =>
    intro st h
    simp [applyMutations, reloadTours, h, decodeTours_encode]
  | cons m rest ih =>
    intro st h
    show reloadTours (applyMutations (applyMutation st m) rest).file
      = (applyMutations (applyMutation st m) rest).tours
    exact ih (applyMutation st m) (applyMutation_file st m)

/-! ## Claims C3, C6, C7, C8, C9, C10 -/

/-- Claim C3: for every store state and every Tour carrying an identifier,
after upsert the Tour can be looked up by its identifier and is returned
exactly as stored (saveTour returns its argument in every variant), in each
Record Store variant: in-memory, file-backed, and managed-document-store. -/
theorem c3_upsert_getById_roundtrip :
    (∀ (st : List Tour) (T : Tour), getTourList (saveTourList st T) T.id = some T)
    ∧ (∀ (fs : FileState) (T : Tour),
        getTourList (fileSaveTour fs T).tours T.id = some T)
    ∧ (∀ (db : FsCollection) (T : Tour), fsGetTour (fsSaveTour db T) T.id = some T) :=
  ⟨getTourList_saveTourList,
   fun fs T => getTourList_saveTourList fs.tours T,
   fun db T => fsDocGet_fsDocSet db T.id T⟩

/-- Claim C6 (amended): the Record Store saves the Tour exactly as supplied;
the stored record's updatedAt equals the caller-supplied value — the store
never stamps the save time (in-memory and file-backed variants). -/
theorem c6_store_preserves_updatedAt :
    (∀ (st : List Tour) (T : Tour),
        (getTourList (saveTourList st T) T.id).map Tour.updatedAt = some T.updatedAt)
    ∧ (∀ (fs : FileState) (T : Tour),
        (getTourList (fileSaveTour fs T).tours T.id).map Tour.updatedAt
          = some T.updatedAt) := by
  refine ⟨fun st T => ?_, fun fs T => ?_⟩
  · rw [getTourList_saveTourList]; rfl
  · show (getTourList (saveTourList fs.tours T) T.id).map Tour.updatedAt = _
    rw [getTourList_saveTourList]; rfl

/-- Claim C6, counterexample to the claim as stated: the stored updatedAt is
whatever the caller supplied (5 and 7 here), not a save-time stamp set by
the store — it is not independent of the caller-supplied value. -/
theorem c6_updatedAt_counterexample :
    (getTourList (saveTourList []
        ⟨"tour-1", "T", "d", "u1", [], 0, 5, Option.none⟩) "tour-1").map
        Tour.updatedAt = some 5
    ∧ (getTourList (saveTourList []
        ⟨"tour-1", "T", "d", "u1", [], 0, 7, Option.none⟩) "tour-1").map
        Tour.updatedAt = some 7
    ∧ (5 : Nat) ≠ 7 :=
  ⟨rfl, rfl, by decide⟩

/-- Claim C7: for the file-backed variant, after any nonempty sequence of
successful saveTour / deleteTour mutations from any starting state,
re-parsing the on-disk JSON document (a process restart) yields exactly the
in-memory working set left by the last mutation. -/
theorem c7_file_reload_roundtrip (st : FileState) (m : Mutation) (ms : List Mutation) :
    reloadTours (applyMutations (applyMutation st m) ms).file
      = (applyMutations (applyMutation st m) ms).tours :=
  reload_applyMutations ms (applyMutation st m) (applyMutation_file st m)

/-- Claim C8: deleteTour succeeds on any identifier and is idempotent
(deleting twice changes nothing further), getTour returns the not-found
marker after either call, and the DELETE route responds 204 both times,
regardless of prior existence. -/
theorem c8_delete_idempotent :
    ∀ (st : List Tour) (id : String),
      deleteTourList (deleteTourList st id) id = deleteTourList st id
      ∧ getTourList (deleteTourList st id) id = Option.none
      ∧ getTourList (deleteTourList (deleteTourList st id) id) id = Option.none
      ∧ (deleteTourRoute st id).2 = 204
      ∧ (deleteTourRoute (deleteTourRoute st id).1 id).2 = 204 := by
  intro st id
  have hidem : deleteTourList (deleteTourList st id) id = deleteTourList st id := by
    simp [deleteTourList, List.filter_filter, Bool.and_self]
  refine ⟨hidem, getTourList_deleteTourList st id, ?_, rfl, rfl⟩
  rw [hidem]
  exact getTourList_deleteTourList st id

/-- Claim C9: for an identifier absent from the store, getTour returns the
not-found marker (distinct from an error), and the GET-by-id route responds
404 with body message "Not found", not a 500. -/
theorem c9_get_not_found (st : List Tour) (id : String)
    (h : ∀ t ∈ st, t.id ≠ id) :
    getTourList st id = Option.none
    ∧ getTourRoute st id = (404, Json.obj [("message", Json.str "Not found")]) := by
  have hn : getTourList st id = Option.none := getTourList_eq_none st id h
  exact ⟨hn, by simp [getTourRoute, hn]⟩

/-- Claim C9, witness: a concrete store without the requested identifier. -/
theorem c9_get_not_found_witness :
    getTourRoute [⟨"tour-1", "A", "a", "u1", [], 0, 0, Option.none⟩] "unknown-id"
      = (404, Json.obj [("message", Json.str "Not found")]) :=
  (c9_get_not_found [⟨"tour-1", "A", "a", "u1", [], 0, 0, Option.none⟩]
    "unknown-id" (by decide)).2

/-- Claim C10: saveTour leaves every stored Tour with a different identifier
unchanged and in place: the subsequence of other-id records is untouched,
any position holding an other-id record holds the same record afterwards,
and when no record shares the identifier the Tour is appended at the end. -/
theorem c10_saveTour_frame (st : List Tour) (T : Tour) :
    ((saveTourList st T).filter (fun t => !(t.id == T.id))
        = st.filter (fun t => !(t.id == T.id)))
    ∧ (∀ (j : Nat) (u : Tour), st[j]? = some u → u.id ≠ T.id →
        (saveTourList st T)[j]? = some u)
    ∧ ((∀ t ∈ st, t.id ≠ T.id) → saveTourList st T = st ++ [T]) := by
  refine ⟨?_, ?_, ?_⟩
  · induction st with
    | nil => simp [saveTourList, upsertBy_nil]
    | cons t ts ih =>
      rw [saveTourList, upsertBy_cons]
      cases h : t.id == T.id with
      | true =>
        rw [if_pos rfl]
        have he : t.id = T.id := by simpa using h
        simp [List.filter_cons, he]
      | false =>
        rw [if_neg (by simp)]
        simp only [List.filter_cons]
        rw [if_pos (by simp [h]), if_pos (by simp [h])]
        rw [show upsertBy (fun t x => t.id == x.id) ts T = saveTourList ts T from rfl, ih]
  · induction st with
    | nil => intro j u hu; simp at hu
    | cons t ts ih =>
      intro j u hu hne
      rw [saveTourList, upsertBy_cons]
      cases h : t.id == T.id with
      | true =>
        rw [if_pos rfl]
        cases j with
        | zero =>
          simp only [List.getElem?_cons_zero, Option.some.injEq] at hu
          subst hu
          exact absurd (by simpa using h) hne
        | succ j => simpa using hu
      | false =>
        rw [if_neg (by simp)]
        cases j with
        | zero => simpa using hu
        | succ j =>
          simp only [List.getElem?_cons_succ] at hu ⊢
          exact ih j u hu hne
  · induction st with
    | nil => intro _; rfl
    | cons t ts ih =>
      intro h
      rw [saveTourList, upsertBy_cons]
      have ht : (t.id == T.id) = false := by
        simpa using h t (by simp)
      rw [if_neg (by simp [ht])]
      rw [show upsertBy (fun t x => t.id == x.id) ts T = saveTourList ts T from rfl]
      rw [ih (fun u hu => h u (by simp [hu]))]
      rfl

/-- Claim C10, witness: saving a Tour with a fresh identifier appends it and
leaves the existing record in place. -/
theorem c10_saveTour_frame_witness :
    saveTourList [⟨"tour-1", "A", "a", "u1", [], 0, 0, Option.none⟩]
        ⟨"tour-2", "B", "b", "u1", [], 0, 0, Option.none⟩
      = [⟨"tour-1", "A", "a", "u1", [], 0, 0, Option.none⟩,
         ⟨"tour-2", "B", "b", "u1", [], 0, 0, Option.none⟩] :=
  (c10_saveTour_frame [⟨"tour-1", "A", "a", "u1", [], 0, 0, Option.none⟩]
    ⟨"tour-2", "B", "b", "u1", [], 0, 0, Option.none⟩).2.2 (by decide)

/-! ## Provider selection (server.js lines 32-67, 212-218)

The environment signals the selector reads, with JavaScript truthiness:
an unset variable and the empty string are both falsy. -/

/-- The environment variables inspected at startup, plus availability of the
Google Cloud client libraries (the `require` at lines 61-62 succeeding). -/
structure ServerEnv where
  PERSISTENCE_MODE : Option String
  STORAGE_MODE : Option String
  GCP_PROJECT_ID : Option String
  GCS_BUCKET_NAME : Option String
  VERCEL : Option String
  AWS_LAMBDA_FUNCTION_NAME : Option String
  cloudLibsAvailable : Bool

/-- JS truthiness of an environment variable: set and nonempty. -/
def jsTruthyEnv : Option String → Bool
  | Option.none => false
  | some s => !(s == "")

/-- JS `a || d` on an environment variable: the value when truthy, else the
default. -/
def jsOrDefault (v : Option String) (d : String) : String :=
  match v with
  | some s => if s == "" then d else s
  | Option.none => d

/-- Line 36: `process.env.PERSISTENCE_MODE || (PROJECT_ID ? 'FIRESTORE' : 'FILE')`. -/
def basePersistenceMode (env : ServerEnv) : String :=
  jsOrDefault env.PERSISTENCE_MODE
    (if jsTruthyEnv env.GCP_PROJECT_ID then "FIRESTORE" else "FILE")

/-- Line 37: `process.env.STORAGE_MODE || (BUCKET_NAME ? 'GCS' : 'DISK')`. -/
def storageMode (env : ServerEnv) : String :=
  jsOrDefault env.STORAGE_MODE
    (if jsTruthyEnv env.GCS_BUCKET_NAME then "GCS" else "DISK")

/-- Line 40: `process.env.VERCEL || process.env.AWS_LAMBDA_FUNCTION_NAME`. -/
def isServerless (env : ServerEnv) : Bool :=
  jsTruthyEnv env.VERCEL || jsTruthyEnv env.AWS_LAMBDA_FUNCTION_NAME

/-- Lines 40-44: in a serverless environment, persistence mode FILE is
downgraded to MEMORY; other modes pass through. -/
def persistenceMode (env : ServerEnv) : String :=
  if isServerless env && (basePersistenceMode env == "FILE") then "MEMORY"
  else basePersistenceMode env

/-- The `console.warn` at line 42 fires exactly on the FILE-to-MEMORY
serverless downgrade. -/
def serverlessWarning (env : ServerEnv) : Bool :=
  isServerless env && (basePersistenceMode env == "FILE")

/-- Lines 59-66: when FIRESTORE persistence or GCS storage is selected and
the Google Cloud libraries are missing, the process exits (`process.exit(1)`). -/
def startupFatal (env : ServerEnv) : Bool :=
  (persistenceMode env == "FIRESTORE" || storageMode env == "GCS")
    && !env.cloudLibsAvailable

/-- The Record Store implementations the switch at lines 214-218 can pick. -/
inductive PersistenceVariant where
  | firestore
  | memory
  | file
deriving DecidableEq, Repr

/-- Lines 214-218 guarded by the fatal startup check: the instantiated
persistence strategy, or `none` when the process exited at line 65. -/
def chosenPersistence (env : ServerEnv) : Option PersistenceVariant :=
  if startupFatal env then Option.none
  else if persistenceMode env == "FIRESTORE" then some PersistenceVariant.firestore
  else if persistenceMode env == "MEMORY" then some PersistenceVariant.memory
  else some PersistenceVariant.file

/-- Claim C4: with no explicit persistence-mode override, the managed
document store is selected exactly when the project identifier is present;
when it is present and the client library is missing, startup is fatal, and
when the library is available the Firestore variant is instantiated.
Otherwise the file-backed variant is selected, unless a serverless runtime
is detected, in which case the in-memory variant is selected with a
warning. -/
theorem c4_provider_selection (env : ServerEnv)
    (hov : jsTruthyEnv env.PERSISTENCE_MODE = false) :
    ((persistenceMode env = "FIRESTORE") ↔ jsTruthyEnv env.GCP_PROJECT_ID = true)
    ∧ (jsTruthyEnv env.GCP_PROJECT_ID = true → env.cloudLibsAvailable = false →
        startupFatal env = true)
    ∧ (jsTruthyEnv env.GCP_PROJECT_ID = true → env.cloudLibsAvailable = true →
        chosenPersistence env = some PersistenceVariant.firestore)
    ∧ (jsTruthyEnv env.GCP_PROJECT_ID = false → isServerless env = true →
        persistenceMode env = "MEMORY" ∧ serverlessWarning env = true
        ∧ (startupFatal env = false →
            chosenPersistence env = some PersistenceVariant.memory))
    ∧ (jsTruthyEnv env.GCP_PROJECT_ID = false → isServerless env = false →
        persistenceMode env = "FILE"
        ∧ (startupFatal env = false →
            chosenPersistence env = some PersistenceVariant.file)) := by
  have hbase : basePersistenceMode env
      = if jsTruthyEnv env.GCP_PROJECT_ID then "FIRESTORE" else "FILE" := by
    unfold basePersistenceMode jsOrDefault
    cases hv : env.PERSISTENCE_MODE with
    | none => rfl
    | some s =>
      rw [hv] at hov
      simp only [jsTruthyEnv, Bool.not_eq_false'] at hov
      simp [hov]
  cases hp : jsTruthyEnv env.GCP_PROJECT_ID with
  | true =>
    have hm : persistenceMode env = "FIRESTORE" := by
      unfold persistenceMode
      rw [hbase, hp]
      simp
    refine ⟨by simp [hm, hp], ?_, ?_, by simp, by simp⟩
    · intro _ hlib
      unfold startupFatal
      simp [hm, hlib]
    · intro _ hlib
      have hf : startupFatal env = false := by
        unfold startupFatal
        simp [hlib]
      unfold chosenPersistence
      simp [hf, hm]
  | false =>
    have hbf : basePersistenceMode env = "FILE" := by rw [hbase, hp]; simp
    cases hs : isServerless env with
    | true =>
      have hm : persistenceMode env = "MEMORY" := by
        unfold persistenceMode
        rw [hbf, hs]
        simp
      refine ⟨by simp [hm], by simp [hp], by simp [hp], ?_, by simp [hs]⟩
      intro _ _
      refine ⟨hm, ?_, ?_⟩
      · unfold serverlessWarning
        rw [hbf, hs]
        simp
      · intro hf
        unfold chosenPersistence
        simp [hf, hm]
    | false =>
      have hm : persistenceMode env = "FILE" := by
        unfold persistenceMode
        rw [hbf, hs]
        simp
      refine ⟨by simp [hm], by simp [hp], by simp [hp], by simp [hs], ?_⟩
      intro _ _
      refine ⟨hm, ?_⟩
      intro hf
      unfold chosenPersistence
      simp [hf, hm]

/-- Claim C4, witness: a project identifier in the environment with the
client libraries available selects the Firestore variant; the instantiation
is evaluated on a concrete environment. -/
theorem c4_provider_selection_witness :
    jsTruthyEnv (ServerEnv.mk Option.none Option.none (some "my-project")
        Option.none Option.none Option.none true).PERSISTENCE_MODE = false
    ∧ chosenPersistence (ServerEnv.mk Option.none Option.none (some "my-project")
        Option.none Option.none Option.none true)
      = some PersistenceVariant.firestore :=
  ⟨rfl, (c4_provider_selection
     (ServerEnv.mk Option.none Option.none (some "my-project")
        Option.none Option.none Option.none true) rfl).2.2.1 rfl rfl⟩

/-! ## Decimal rendering of JS numbers

`Date.now()`, `Math.round(Math.random() * 1E9)` and `time()` values are
naturals; string concatenation renders them in decimal.  The renderer is
structural in a fuel argument so that concrete witnesses evaluate by
kernel reduction. -/

/-- Decimal digits of `n`, most significant first; `fuel` bounds the
recursion depth and any `fuel > n` is enough. -/
def natDigitsAux : Nat → Nat → List Char
  | 0, _ => []
  | fuel + 1, n =>
    if n < 10 then [Nat.digitChar n]
    else natDigitsAux fuel (n / 10) ++ [Nat.digitChar (n % 10)]

/-- Decimal rendering of a natural, as JS string concatenation does. -/
def jsNatStr (n : Nat) : String :=
  ⟨natDigitsAux (n + 1) n⟩

theorem natDigitsAux_fuel (n : Nat) : ∀ f₁ f₂, n < f₁ → n < f₂ →
    natDigitsAux f₁ n = natDigitsAux f₂ n := by
  induction n using Nat.strong_induction_on with
  | _ n ih =>
    intro f₁ f₂ h₁ h₂
    cases f₁ with
    | zero => omega
    | succ f₁ =>
      cases f₂ with
      | zero => omega
      | succ f₂ =>
        simp only [natDigitsAux]
        by_cases h10 : n < 10
        · simp [h10]
        · rw [if_neg h10, if_neg h10]
          have hlt : n / 10 < n := Nat.div_lt_self (by omega) (by omega)
          rw [ih (n / 10) hlt f₁ f₂ (by omega) (by omega)]

theorem natDigitsAux_isDigit (f : Nat) : ∀ n, n < f →
    ∀ c ∈ natDigitsAux f n, c.isDigit = true := by
  induction f with
  | zero => intro n h; omega
  | succ f ih =>
    intro n _ c hc
    simp only [natDigitsAux] at hc
    have hd : ∀ d : Nat, d < 10 → (Nat.digitChar d).isDigit = true := by
      intro d hlt
      interval_cases d <;> decide
    by_cases h10 : n < 10
    · rw [if_pos h10] at hc
      simp only [List.mem_singleton] at hc
      subst hc
      exact hd n h10
    · rw [if_neg h10] at hc
      rcases List.mem_append.mp hc with hc | hc
      · have hlt : n / 10 < n := Nat.div_lt_self (by omega) (by omega)
        have hfuel : n / 10 < f := by omega
        exact ih (n / 10) hfuel c hc
      · simp only [List.mem_singleton] at hc
        subst hc
        exact hd (n % 10) (Nat.mod_lt _ (by omega))

/-- Value of a decimal digit list, most significant first. -/
def evalDigits (l : List Char) : Nat :=
  l.foldl (fun a c => a * 10 + (c.toNat - 48)) 0

theorem evalDigits_natDigitsAux (f : Nat) : ∀ n, n < f →
    evalDigits (natDigitsAux f n) = n := by
  induction f with
  | zero => intro n h; omega
  | succ f ih =>
    intro n hn
    have hval : ∀ d : Nat, d < 10 → (Nat.digitChar d).toNat - 48 = d := by
      intro d hlt
      interval_cases d <;> decide
    simp only [natDigitsAux]
    by_cases h10 : n < 10
    · rw [if_pos h10]
      show 0 * 10 + ((Nat.digitChar n).toNat - 48) = n
      rw [Nat.zero_mul, Nat.zero_add]
      exact hval n h10
    · rw [if_neg h10]
      unfold evalDigits
      rw [List.foldl_append]
      have hlt : n / 10 < n := Nat.div_lt_self (by omega) (by omega)
      have hrec : List.foldl (fun a c => a * 10 + (c.toNat - 48)) 0
          (natDigitsAux f (n / 10)) = n / 10 := ih (n / 10) (by omega)
      rw [hrec]
      show n / 10 * 10 + ((Nat.digitChar (n % 10)).toNat - 48) = n
      rw [hval (n % 10) (Nat.mod_lt _ (by omega))]
      omega

theorem jsNatStr_injective (m n : Nat) (h : jsNatStr m = jsNatStr n) : m = n := by
  have hdata : natDigitsAux (m + 1) m = natDigitsAux (n + 1) n :=
    congrArg String.data h
  have hm := evalDigits_natDigitsAux (m + 1) m (by omega)
  have hn := evalDigits_natDigitsAux (n + 1) n (by omega)
  rw [hdata] at hm
  omega

theorem jsNatStr_no_dash (n : Nat) : ∀ c ∈ (jsNatStr n).data, c ≠ '-' := by
  intro c hc he
  have hd := natDigitsAux_isDigit (n + 1) n (by omega) c hc
  subst he
  exact absurd hd (by decide)

/-- Splitting a character list at the first dash: when neither prefix block
contains a dash, equal concatenations force equal blocks. -/
theorem splitAtDash : ∀ (d₁ d₂ r₁ r₂ : List Char),
    (∀ c ∈ d₁, c ≠ '-') → (∀ c ∈ d₂, c ≠ '-') →
    d₁ ++ '-' :: r₁ = d₂ ++ '-' :: r₂ → d₁ = d₂ ∧ r₁ = r₂ := by
  intro d₁
  induction d₁ with
  | nil =>
    intro d₂ r₁ r₂ _ h₂ he
    cases d₂ with
    | nil =>
      simp only [List.nil_append, List.cons.injEq] at he
      exact ⟨rfl, he.2⟩
    | cons c d =>
      simp only [List.nil_append, List.cons_append, List.cons.injEq] at he
      exact absurd he.1.symm (h₂ c (by simp))
  | cons c d ih =>
    intro d₂ r₁ r₂ h₁ h₂ he
    cases d₂ with
    | nil =>
      simp only [List.cons_append, List.nil_append, List.cons.injEq] at he
      exact absurd he.1 (h₁ c (by simp))
    | cons c' d' =>
      simp only [List.cons_append, List.cons.injEq] at he
      have hrec := ih d' r₁ r₂ (fun x hx => h₁ x (by simp [hx]))
        (fun x hx => h₂ x (by simp [hx])) he.2
      exact ⟨by rw [he.1, hrec.1], hrec.2⟩

/-! ## Blob Store (server.js, DiskStorage and GoogleCloudStorage) -/

/-- An uploaded file as multer hands it to the storage strategies. -/
structure UploadedFile where
  originalname : String
  buffer : String
  mimetype : String
deriving DecidableEq, Repr

/-- Model of Node `path.extname`: the substring from the last dot of the
name onward, empty when there is no dot or the only dot starts the name. -/
def extnameData (cs : List Char) : List Char :=
  let r := cs.reverse
  let pre := r.takeWhile (fun c => !(c == '.'))
  if pre.length = r.length then []
  else if pre.length + 1 = r.length then []
  else '.' :: pre.reverse

/-- Node `path.extname` on a filename string. -/
def extname (s : String) : String :=
  ⟨extnameData s.data⟩

/-- DiskStorage filename generation (server.js lines 161-163):
`Date.now() + '-' + Math.round(Math.random() * 1E9)` plus the original
extension. -/
def diskFilename (now rand : Nat) (orig : String) : String :=
  (jsNatStr now ++ "-" ++ jsNatStr rand) ++ extname orig

/-- DiskStorage.getFileUrl (server.js line 171):
the configured base URL, the uploads prefix, and the generated filename. -/
def diskFileUrl (base filename : String) : String :=
  base ++ "/uploads/" ++ filename

/-- GoogleCloudStorage blob name (server.js line 191):
`Date.now() + '-' + file.originalname` — no random suffix, whole original
name rather than just the extension. -/
def gcsBlobName (now : Nat) (f : UploadedFile) : String :=
  jsNatStr now ++ "-" ++ f.originalname

/-- GoogleCloudStorage public URL (server.js line 199). -/
def gcsFileUrl (bucket : String) (now : Nat) (f : UploadedFile) : String :=
  "https://storage.googleapis.com/" ++ bucket ++ "/" ++ gcsBlobName now f

theorem diskFilename_data_inj (orig : String) (n₁ r₁ n₂ r₂ : Nat)
    (h : (diskFilename n₁ r₁ orig).data = (diskFilename n₂ r₂ orig).data) :
    n₁ = n₂ ∧ r₁ = r₂ := by
  have hdash : ("-" : String).data = ['-'] := rfl
  simp only [diskFilename, String.data_append, hdash, List.append_assoc,
    List.singleton_append, List.cons_append] at h
  obtain ⟨h1, h2⟩ := splitAtDash _ _ _ _ (jsNatStr_no_dash n₁) (jsNatStr_no_dash n₂) h
  have he : (jsNatStr r₁).data = (jsNatStr r₂).data := List.append_cancel_right h2
  have e₁ : evalDigits (jsNatStr n₁).data = n₁ :=
    evalDigits_natDigitsAux (n₁ + 1) n₁ (by omega)
  have e₂ : evalDigits (jsNatStr n₂).data = n₂ :=
    evalDigits_natDigitsAux (n₂ + 1) n₂ (by omega)
  have f₁ : evalDigits (jsNatStr r₁).data = r₁ :=
    evalDigits_natDigitsAux (r₁ + 1) r₁ (by omega)
  have f₂ : evalDigits (jsNatStr r₂).data = r₂ :=
    evalDigits_natDigitsAux (r₂ + 1) r₂ (by omega)
  rw [h1] at e₁
  rw [he] at f₁
  omega

/-- Claim C5, counterexample to the claim as stated: the GCS variant keys an
upload by timestamp and full original filename only — two different files
sharing an original filename, uploaded in the same millisecond, receive the
same URL, and the key carries no random suffix. -/
theorem c5_gcs_collision :
    gcsFileUrl "tour-media" 1000 ⟨"photo.jpg", "AAAA", "image/jpeg"⟩
      = gcsFileUrl "tour-media" 1000 ⟨"photo.jpg", "BBBB", "image/jpeg"⟩
    ∧ (⟨"photo.jpg", "AAAA", "image/jpeg"⟩ : UploadedFile)
        ≠ ⟨"photo.jpg", "BBBB", "image/jpeg"⟩
    ∧ (⟨"photo.jpg", "AAAA", "image/jpeg"⟩ : UploadedFile).originalname
        = (⟨"photo.jpg", "BBBB", "image/jpeg"⟩ : UploadedFile).originalname :=
  ⟨rfl, by decide, rfl⟩

/-- Claim C5 (amended): the disk variant generates timestamp-random keys
with the original extension, so two uploads sharing an original filename
obtain distinct URLs whenever their timestamp-random draws differ; the GCS
variant does not (see the counterexample). -/
theorem c5_disk_urls_distinct (base orig : String) (n₁ r₁ n₂ r₂ : Nat)
    (h : ¬ (n₁ = n₂ ∧ r₁ = r₂)) :
    diskFileUrl base (diskFilename n₁ r₁ orig)
      ≠ diskFileUrl base (diskFilename n₂ r₂ orig) := by
  intro he
  have hd := congrArg String.data he
  rw [show (diskFileUrl base (diskFilename n₁ r₁ orig)).data
      = (base ++ "/uploads/").data ++ (diskFilename n₁ r₁ orig).data from rfl,
    show (diskFileUrl base (diskFilename n₂ r₂ orig)).data
      = (base ++ "/uploads/").data ++ (diskFilename n₂ r₂ orig).data from rfl] at hd
  exact h (diskFilename_data_inj orig n₁ r₁ n₂ r₂ (List.append_cancel_left hd))

/-- Claim C5, witness: same millisecond, different random draws, same
original filename — the two disk URLs differ. -/
theorem c5_disk_urls_distinct_witness :
    diskFileUrl "https://geoguide.example" (diskFilename 1000 7 "photo.jpg")
      ≠ diskFileUrl "https://geoguide.example" (diskFilename 1000 8 "photo.jpg") :=
  c5_disk_urls_distinct "https://geoguide.example" "photo.jpg" 1000 7 1000 8 (by decide)

/-! ## Router handlers over raw JSON objects (server.js handleSave and the
PHP local-mode backend)

The Node router works on `req.body` as a raw JS object, so these handlers
are embedded at the `JObj` level.  Identifier comparison is JS `===`; on a
value model reference equality of two distinct objects or arrays is not
observable and is conservatively `false` — every identifier the backend
ever compares is a string or absent, where `===` is value equality. -/

/-- JS `===` on primitive JSON values. -/
def jsPrimEq : Json → Json → Bool
  | Json.str a, Json.str b => a == b
  | Json.num a, Json.num b => a == b
  | Json.bool a, Json.bool b => a == b
  | Json.null, Json.null => true
  | _, _ => false

/-- JS `===` on possibly-absent property values
(`undefined === undefined` is true). -/
def jsIdEq : Option Json → Option Json → Bool
  | Option.none, Option.none => true
  | some a, some b => jsPrimEq a b
  | _, _ => false

/-- JS truthiness of a property value (`!tour.id` at line 279 tests its
negation): absent, null, false, empty string and zero are falsy. -/
def jsTruthyJson : Option Json → Bool
  | Option.none => false
  | some Json.null => false
  | some (Json.bool b) => b
  | some (Json.str s) => !(s == "")
  | some (Json.num i) => !(i == 0)
  | some (Json.arr _) => true
  | some (Json.obj _) => true

/-- JS property assignment `o[k] = v`: update the key in place when present,
else append it. -/
def setKey (o : JObj) (k : String) (v : Json) : JObj :=
  if (lookupKey k o).isSome then
    o.map (fun kv => if kv.1 == k then (kv.1, v) else kv)
  else o ++ [(k, v)]

/-- MemoryPersistence.saveTour as the router exercises it, over raw objects
keyed by the `id` property. -/
def saveTourObjs (st : List JObj) (tour : JObj) : List JObj :=
  upsertBy (fun t x => jsIdEq (lookupKey "id" t) (lookupKey "id" x)) st tour

/-- MemoryPersistence.getTour over raw objects, id drawn from the URL. -/
def getTourObjs (st : List JObj) (id : String) : Option JObj :=
  st.find? (fun t => jsIdEq (lookupKey "id" t) (some (Json.str id)))

/-- Lines 278-279: the saved record is the request body, with a generated
`tour-<Date.now()>` identifier assigned when the body's id is falsy. -/
def assignedTour (now : Nat) (reqBody : JObj) : JObj :=
  if jsTruthyJson (lookupKey "id" reqBody) then reqBody
  else setKey reqBody "id" (Json.str ("tour-" ++ jsNatStr now))

/-- Result of the shared POST / PUT handler. -/
structure SaveResult where
  state : List JObj
  status : Nat
  body : JObj

/-- handleSave (server.js lines 276-289), the handler of both
`POST /api/tours` and `PUT /api/tours/:id`: assign an id when the body has
none, upsert the body, respond `res.status(200).json(tour)`.  The URL id of
the PUT route is never read. -/
def handleSave (now : Nat) (st : List JObj) (reqBody : JObj) : SaveResult :=
  ⟨saveTourObjs st (assignedTour now reqBody), 200, assignedTour now reqBody⟩

/-! ### PHP local-mode backend (src/unnamed/part_000, first script) -/

/-- PHP `$t['id'] === $id` where `$id` is the URL path segment (a string). -/
def phpIdMatch (id : String) (t : JObj) : Bool :=
  match lookupKey "id" t with
  | some (Json.str s) => s == id
  | _ => false

/-- PHP `isset($input['id'])`: key present with a non-null value. -/
def phpIsset : Option Json → Bool
  | Option.none => false
  | some Json.null => false
  | some _ => true

/-- PHP `array_merge($t, $input)` on string-keyed arrays: the keys of `$t`
in order with values overridden by `$input` where present, then the keys
of `$input` not in `$t`, in order. -/
def arrayMergeStr (a b : JObj) : JObj :=
  a.map (fun kv =>
    match lookupKey kv.1 b with
    | some v => (kv.1, v)
    | Option.none => kv)
  ++ b.filter (fun kv => (lookupKey kv.1 a).isNone)

/-- The PUT case (part_000 lines 137-161): walk the records, merge the
request body over the first record whose id matches the URL id and stop
(`break`); append the body as-is when no record matches. -/
def phpPut : List JObj → String → JObj → List JObj
  | [], _, input => [input]
  | t :: rest, id, input =>
    if phpIdMatch id t then arrayMergeStr t input :: rest
    else t :: phpPut rest id input

/-- The POST case (part_000 lines 108-135): assign `'tour-' . time()` when
`id` is not set, replace the first record with the same id or append, and
respond 201. -/
def phpPost (now : Nat) (tours : List JObj) (input : JObj) : List JObj × Nat :=
  let input' := if phpIsset (lookupKey "id" input) then input
                else setKey input "id" (Json.str ("tour-" ++ jsNatStr now))
  (saveTourObjs tours input', 201)

/-! ### Lookup lemmas for array_merge -/

theorem lookupKey_append (key : String) (l₁ l₂ : JObj) :
    lookupKey key (l₁ ++ l₂) = (lookupKey key l₁).or (lookupKey key l₂) := by
  induction l₁ with
  | nil => simp [lookupKey, Option.or]
  | cons kv rest ih =>
    cases kv with
    | mk k v =>
      simp only [List.cons_append, lookupKey]
      cases hk : k == key with
      | true => simp [Option.or]
      | false => simpa using ih

theorem lookupKey_mergeMap (a b : JObj) (key : String) :
    lookupKey key (a.map (fun kv =>
        match lookupKey kv.1 b with
        | some v => (kv.1, v)
        | Option.none => kv))
      = match lookupKey key a with
        | some v =>
          some (match lookupKey key b with
                | some w => w
                | Option.none => v)
        | Option.none => Option.none := by
  induction a with
  | nil => rfl
  | cons kv rest ih =>
    cases kv with
    | mk k v =>
      simp only [List.map_cons, lookupKey]
      cases hk : k == key with
      | true =>
        have he : k = key := by simpa using hk
        subst he
        cases hb : lookupKey k b with
        | none => simp [lookupKey, hb]
        | some w => simp [lookupKey, hb]
      | false =>
        cases hb : lookupKey k b with
        | none =>
          simp only [hb, lookupKey, hk, Bool.false_eq_true, if_false]
          exact ih
        | some w =>
          simp only [hb, lookupKey, hk, Bool.false_eq_true, if_false]
          exact ih

theorem lookupKey_filterNone (a b : JObj) (key : String) :
    lookupKey key (b.filter (fun kv => (lookupKey kv.1 a).isNone))
      = if (lookupKey key a).isNone then lookupKey key b else Option.none := by
  induction b with
  | nil => cases h : (lookupKey key a).isNone <;> simp [lookupKey, h]
  | cons kv rest ih =>
    cases kv with
    | mk k w =>
      simp only [List.filter_cons]
      cases hk : k == key with
      | true =>
        have he : k = key := by simpa using hk
        subst he
        cases ha : (lookupKey k a).isNone with
        | true => simp [ha, lookupKey]
        | false => simp [ha, lookupKey, ih]
      | false =>
        cases ha : (lookupKey k a).isNone with
        | true =>
          simp only [ha, if_pos rfl, lookupKey, hk, Bool.false_eq_true, if_false]
          rw [ih]
        | false =>
          rw [if_neg (by simp)]
          rw [ih]
          cases h2 : (lookupKey key a).isNone <;> simp [h2, lookupKey, hk]

/-- PHP array_merge overlay, pointwise: a key resolves to the request value
when the request mentions it, else to the existing record's value. -/
theorem lookupKey_arrayMergeStr (a b : JObj) (key : String) :
    lookupKey key (arrayMergeStr a b) = (lookupKey key b).or (lookupKey key a) := by
  unfold arrayMergeStr
  rw [lookupKey_append, lookupKey_mergeMap, lookupKey_filterNone]
  cases ha : lookupKey key a with
  | none => cases hb : lookupKey key b <;> simp [Option.or]
  | some v => cases hb : lookupKey key b <;> simp [Option.or]

/-! ## Claims C1 and C2 -/

/-- A string of the shape `tour-<digits>`. -/
def isTourIdPattern (s : String) : Bool :=
  match s.data with
  | 't' :: 'o' :: 'u' :: 'r' :: '-' :: rest => rest.all Char.isDigit
  | _ => false

theorem isTourIdPattern_gen (now : Nat) :
    isTourIdPattern ("tour-" ++ jsNatStr now) = true := by
  unfold isTourIdPattern
  rw [show ("tour-" ++ jsNatStr now).data
      = 't' :: 'o' :: 'u' :: 'r' :: '-' :: (jsNatStr now).data from rfl]
  show (jsNatStr now).data.all Char.isDigit = true
  rw [List.all_eq_true]
  intro c hc
  exact natDigitsAux_isDigit (now + 1) now (by omega) c hc

/-- Claim C1 (amended): in the PHP local-mode backend, PUT on an existing
record merges: the stored record at the matched position keeps every field
the body does not mention and takes the body's value for every field it
does mention.  (The Node handleSave does not merge — see the
counterexample.) -/
theorem c1_php_put_merges (pre post : List JObj) (t : JObj) (id : String) (input : JObj)
    (hpre : ∀ u ∈ pre, phpIdMatch id u = false) (ht : phpIdMatch id t = true) :
    phpPut (pre ++ t :: post) id input = pre ++ arrayMergeStr t input :: post
    ∧ ∀ key, lookupKey key (arrayMergeStr t input)
        = (lookupKey key input).or (lookupKey key t) := by
  refine ⟨?_, fun key => lookupKey_arrayMergeStr t input key⟩
  induction pre with
  | nil =>
    simp [phpPut, ht]
  | cons u rest ih =>
    have hu : phpIdMatch id u = false := hpre u (by simp)
    simp only [List.cons_append, phpPut, hu, Bool.false_eq_true, if_false]
    exact congrArg (fun l => u :: l) (ih (fun w hw => hpre w (by simp [hw])))

/-- Claim C1, witness: the spec scenario on the PHP backend — PUT of only a
new title over a record with a description stores the new title and keeps
the old description. -/
theorem c1_php_put_merges_witness :
    phpPut [[("id", Json.str "tour-1"), ("title", Json.str "Old Title"),
             ("description", Json.str "old")]]
        "tour-1" [("title", Json.str "New Title")]
      = [[("id", Json.str "tour-1"), ("title", Json.str "New Title"),
          ("description", Json.str "old")]]
    ∧ lookupKey "title" (arrayMergeStr
        [("id", Json.str "tour-1"), ("title", Json.str "Old Title"),
         ("description", Json.str "old")]
        [("title", Json.str "New Title")]) = some (Json.str "New Title")
    ∧ lookupKey "description" (arrayMergeStr
        [("id", Json.str "tour-1"), ("title", Json.str "Old Title"),
         ("description", Json.str "old")]
        [("title", Json.str "New Title")]) = some (Json.str "old") :=
  ⟨(c1_php_put_merges [] []
      [("id", Json.str "tour-1"), ("title", Json.str "Old Title"),
       ("description", Json.str "old")]
      "tour-1" [("title", Json.str "New Title")] (by simp) rfl).1,
   (c1_php_put_merges [] []
      [("id", Json.str "tour-1"), ("title", Json.str "Old Title"),
       ("description", Json.str "old")]
      "tour-1" [("title", Json.str "New Title")] (by simp) rfl).2 "title",
   (c1_php_put_merges [] []
      [("id", Json.str "tour-1"), ("title", Json.str "Old Title"),
       ("description", Json.str "old")]
      "tour-1" [("title", Json.str "New Title")] (by simp) rfl).2 "description"⟩

/-- Claim C1, counterexample to the claim as stated: the Node backend
handles PUT with handleSave, which never merges and never reads the URL id.
PUT of `title: New Title` (no body id) against a store holding `tour-1`
leaves the `tour-1` record entirely untouched (title still `Old Title`,
not the merged `New Title`) and appends a fresh record instead. -/
theorem c1_put_counterexample :
    ((getTourObjs (handleSave 999
        [[("id", Json.str "tour-1"), ("title", Json.str "Old Title"),
          ("description", Json.str "old")]]
        [("title", Json.str "New Title")]).state "tour-1").map (strField "title"))
      = some (some "Old Title")
    ∧ ((getTourObjs (handleSave 999
        [[("id", Json.str "tour-1"), ("title", Json.str "Old Title"),
          ("description", Json.str "old")]]
        [("title", Json.str "New Title")]).state "tour-1").map (strField "title"))
      ≠ some (some "New Title")
    ∧ (handleSave 999
        [[("id", Json.str "tour-1"), ("title", Json.str "Old Title"),
          ("description", Json.str "old")]]
        [("title", Json.str "New Title")]).state.length = 2 :=
  ⟨rfl, by decide, rfl⟩

/-- Claim C2 (amended): on the Node backend, POST responds 200 — not 201 —
and when the body omits the id the response body carries the server-assigned
identifier `tour-` followed by the decimal epoch milliseconds, matching the
`tour-<digits>` pattern; the PHP backends do respond 201. -/
theorem c2_post_amended (now : Nat) (st : List JObj) (reqBody : JObj)
    (h : lookupKey "id" reqBody = Option.none) :
    (handleSave now st reqBody).status = 200
    ∧ lookupKey "id" (handleSave now st reqBody).body
        = some (Json.str ("tour-" ++ jsNatStr now))
    ∧ isTourIdPattern ("tour-" ++ jsNatStr now) = true
    ∧ ∀ (tours : List JObj) (input : JObj), (phpPost now tours input).2 = 201 := by
  refine ⟨rfl, ?_, isTourIdPattern_gen now, fun tours input => rfl⟩
  show lookupKey "id" (assignedTour now reqBody) = _
  have hfal : jsTruthyJson (lookupKey "id" reqBody) = false := by rw [h]; rfl
  have hset : setKey reqBody "id" (Json.str ("tour-" ++ jsNatStr now))
      = reqBody ++ [("id", Json.str ("tour-" ++ jsNatStr now))] := by
    unfold setKey
    rw [h]
    rfl
  unfold assignedTour
  rw [hfal]
  rw [if_neg (by simp), hset, lookupKey_append, h]
  simp [lookupKey, Option.or]

/-- Claim C2, witness: the spec scenario body (no id), saved at epoch
millisecond 1234, yields the id `tour-1234`, which matches the pattern. -/
theorem c2_post_amended_witness :
    lookupKey "id" (handleSave 1234 []
        [("title", Json.str "Paris Walk"), ("description", Json.str "d"),
         ("authorId", Json.str "u1"), ("stops", Json.arr [])]).body
      = some (Json.str "tour-1234")
    ∧ isTourIdPattern "tour-1234" = true :=
  ⟨(c2_post_amended 1234 []
      [("title", Json.str "Paris Walk"), ("description", Json.str "d"),
       ("authorId", Json.str "u1"), ("stops", Json.arr [])] rfl).2.1,
   (c2_post_amended 1234 []
      [("title", Json.str "Paris Walk"), ("description", Json.str "d"),
       ("authorId", Json.str "u1"), ("stops", Json.arr [])] rfl).2.2.1⟩

/-- Claim C2, counterexample to the claim as stated: the Node handleSave
responds 200 on the spec scenario body, not 201. -/
theorem c2_post_status_counterexample :
    (handleSave 1234 []
        [("title", Json.str "Paris Walk"), ("description", Json.str "d"),
         ("authorId", Json.str "u1"), ("stops", Json.arr [])]).status = 200
    ∧ (200 : Nat) ≠ 201 :=
  ⟨rfl, by decide⟩
